import Mathlib

/-!
Verification of the retrieval-and-guardrail pipeline of the chat-ai-cms
repository.  The definitions below are a shallow embedding of
`app/services/guardrail_service.py`, `app/services/retrieval_service.py`,
`app/services/chat_service.py` and `app/routers/chat.py`: Python floats
become exact fractions, database rows become explicit lists of records,
and the LLM-provider and random phrasing calls become oracle parameters.
All definitions are computable so that concrete runs can be settled by
`decide`.
-/

namespace ChatCMS

/-- Exact fraction standing in for the Python float scores of the topic
matcher: integer numerator over a positive natural denominator, compared
by cross multiplication and never normalised, so every operation reduces
in the kernel.  All constants in the source are decimal literals, which
this represents exactly. -/
structure Frac where
  num : Int
  den : Nat
  deriving Repr, DecidableEq

/-- Fraction comparison `a <= b` (cross multiplication; denominators in
this development are always positive). -/
def Frac.le (a b : Frac) : Bool :=
  decide (a.num * (b.den : Int) ≤ b.num * (a.den : Int))

/-- Fraction comparison `a < b`. -/
def Frac.lt (a b : Frac) : Bool :=
  decide (a.num * (b.den : Int) < b.num * (a.den : Int))

/-- Python `max` on two scores. -/
def fmax (a b : Frac) : Frac := if a.le b then b else a

/-- Python `min` on two scores. -/
def fmin (a b : Frac) : Frac := if a.le b then a else b

/-- Fraction multiplication (used for `0.6 * overlap`). -/
def Frac.mul (a b : Frac) : Frac := ⟨a.num * b.num, a.den * b.den⟩

/-- Python `str.lower()` (character-wise, as in the ASCII content the
pipeline handles). -/
def lowerStr (s : String) : String := String.mk (s.data.map Char.toLower)

/-- Python substring containment `needle in hay` on strings. -/
def occursIn (needle hay : String) : Bool :=
  hay.data.tails.any (fun t => needle.data.isPrefixOf t)

/-- Splitter for Python `str.split()`: accumulate the current word and
break on whitespace runs. -/
def wordsAux : List Char → List Char → List (List Char)
  | [], cur => if cur.isEmpty then [] else [cur.reverse]
  | c :: rest, cur =>
    if c.isWhitespace then
      if cur.isEmpty then wordsAux rest [] else cur.reverse :: wordsAux rest []
    else wordsAux rest (c :: cur)

/-- Python `str.split()`: split on whitespace runs, no empty pieces. -/
def pyWords (s : String) : List String := (wordsAux s.data []).map String.mk

/-- Python `str.strip()`. -/
def trimStr (s : String) : String :=
  String.mk (((s.data.dropWhile Char.isWhitespace).reverse.dropWhile Char.isWhitespace).reverse)

/-- The `guardrails` JSON object stored on a `Scope`
(`scope.guardrails`); absent keys are modelled by `none` / `[]`,
matching the `guardrails.get(key, default)` accesses in the source. -/
structure Guardrails where
  strictness_level : Option String := none
  allowed_topics : List String := []
  forbidden_topics : List String := []
  refusal_message : Option String := none
  deriving Repr, DecidableEq

/-- The `dataset_filters` JSON object stored on a `Scope`: an optional
tag list and string-valued metadata equality constraints. -/
structure DatasetFilters where
  tags : Option (List String) := none
  metaPairs : List (String × String) := []
  deriving Repr, DecidableEq

/-- A `Scope` row (app/models.py), restricted to the fields the pipeline
reads. -/
structure Scope where
  name : String := ""
  is_active : Bool := true
  guardrails : Option Guardrails := none
  dataset_filters : Option DatasetFilters := none
  deriving Repr, DecidableEq

/-- A `Bot` row, restricted to the fields the pipeline reads
(`bot.scopes` ordered as loaded, `bot.name` for the chat-service scope
check). -/
structure Bot where
  name : String := ""
  scopes : List Scope := []
  deriving Repr, DecidableEq

/-- `scope.guardrails or {}` in the source. -/
def guardrailsOf (s : Scope) : Guardrails :=
  s.guardrails.getD {}

/-- The math vocabulary of
`GuardrailService._get_domain_specific_strength`. -/
def mathIndicators : List String :=
  ["derivative", "integral", "limit", "theorem", "proof", "equation", "formula",
   "solve", "calculate", "compute", "factor", "expand", "simplify", "graph",
   "function", "variable", "coefficient", "polynomial", "quadratic", "linear",
   "trigonometry", "sine", "cosine", "tangent", "logarithm", "exponential",
   "matrix", "vector", "angle", "triangle", "circle", "radius", "diameter",
   "area", "volume", "perimeter", "pythagorean", "hypotenuse", "adjacent",
   "probability", "statistics", "mean", "median", "mode", "standard deviation",
   "fraction", "decimal", "percentage", "ratio", "proportion", "number"]

/-- The math symbol list of
`GuardrailService._get_domain_specific_strength`. -/
def mathSymbols : List String :=
  ["+", "-", "*", "/", "=", "<", ">", "≤", "≥", "²", "³", "x^", "y="]

/-- The support vocabulary of
`GuardrailService._get_domain_specific_strength`. -/
def supportDomainIndicators : List String :=
  ["help", "issue", "problem", "bug", "error", "fix", "broken", "not working",
   "account", "login", "password", "billing", "payment", "subscription",
   "refund", "cancel", "upgrade", "downgrade", "feature", "how to", "tutorial"]

/-- The support-query indicator list used directly inside
`GuardrailService._get_topic_match_strength`. -/
def supportQueryIndicators : List String :=
  ["password", "reset", "login", "account", "profile", "username",
   "recover", "access", "issue", "problem", "help", "support"]

/-- Embeds `GuardrailService._get_domain_specific_strength(content_lower,
topics)`: a math branch (indicator/symbol counts), falling through to a
support branch, else `0.0`. -/
def domainSpecificStrength (contentLower : String) (topics : List String) : Frac :=
  let lowered := topics.map lowerStr
  let mathHit := ["math", "mathematics", "algebra", "calculus", "geometry"].any
    (fun t => lowered.contains t)
  let strongMatches := (mathIndicators.filter (fun i => occursIn i contentLower)).length
  let symbolMatches := (mathSymbols.filter (fun s => occursIn s contentLower)).length
  if mathHit = true ∧ (2 ≤ strongMatches ∨ 1 ≤ symbolMatches) then ⟨8, 10⟩
  else if mathHit = true ∧ 1 ≤ strongMatches then ⟨6, 10⟩
  else
    let supportHit := ["support", "customer support", "technical support", "help"].any
      (fun t => lowered.contains t)
    let supportMatches :=
      (supportDomainIndicators.filter (fun i => occursIn i contentLower)).length
    if supportHit = true ∧ 2 ≤ supportMatches then ⟨7, 10⟩
    else if supportHit = true ∧ 1 ≤ supportMatches then ⟨5, 10⟩
    else ⟨0, 1⟩

/-- Embeds `GuardrailService._get_topic_match_strength(content, topics)`:
per topic the maximum of verbatim containment (`1.0`), `0.6` times the
distinct-word overlap over the topic word count, the domain-specific
strength, and a `0.8` support bonus; overall the maximum over topics,
clamped to `1.0`. -/
def topicMatchStrength (content : String) (topics : List String) : Frac :=
  let contentLower := lowerStr content
  let perTopic := fun (topic : String) =>
    let topicLower := lowerStr topic
    let s1 : Frac := if occursIn topicLower contentLower then ⟨1, 1⟩ else ⟨0, 1⟩
    let contentWords := pyWords contentLower
    let topicWords := pyWords topicLower
    let matching := contentWords.eraseDups.filter (fun w => topicWords.contains w)
    let s2 : Frac :=
      if matching ≠ [] then
        fmax s1 (Frac.mul ⟨6, 10⟩ ⟨(matching.length : Int), topicWords.length⟩)
      else s1
    let s3 : Frac := fmax s2 (domainSpecificStrength contentLower topics)
    if (["support", "help", "account", "login", "technical"].any
          (fun t => topics.contains t)) = true ∧
       (supportQueryIndicators.any (fun i => occursIn i contentLower)) = true
    then fmax s3 ⟨8, 10⟩ else s3
  fmin (topics.foldl (fun acc t => fmax acc (perTopic t)) ⟨0, 1⟩) ⟨1, 1⟩

/-- Embeds `GuardrailService._matches_topics`: strength strictly above
`0.3`. -/
def matches_topics (content : String) (topics : List String) : Bool :=
  Frac.lt ⟨3, 10⟩ (topicMatchStrength content topics)

/-- One iteration of the scope loop in `GuardrailService.validate_query`;
`none` means this scope is not decisive and the loop continues.  The
`smart` parameter is the oracle for `_get_smart_response` (an LLM call
with a deterministic fallback), applied to the query, the guardrails,
the scope name, and the response type. -/
def scopeDecision (smart : String → Guardrails → String → String → String)
    (content : String) (scope : Scope) : Option (Bool × Option String) :=
  if scope.is_active = false then none
  else
    let g := guardrailsOf scope
    let strictness := g.strictness_level.getD "moderate"
    if g.forbidden_topics ≠ [] ∧ matches_topics content g.forbidden_topics = true then
      some (false, some (smart content g scope.name "forbidden"))
    else if g.allowed_topics ≠ [] then
      let s := topicMatchStrength content g.allowed_topics
      if strictness = "strict" then
        if s.lt ⟨7, 10⟩ then some (false, some (smart content g scope.name "off_topic"))
        else none
      else if strictness = "moderate" then
        if s.lt ⟨3, 10⟩ then some (false, some (smart content g scope.name "redirect"))
        else if s.lt ⟨5, 10⟩ then some (true, none)
        else none
      else if strictness = "lenient" then
        if s.lt ⟨1, 10⟩ then some (false, some (smart content g scope.name "gentle_redirect"))
        else none
      else none
    else none

/-- The scope loop of `GuardrailService.validate_query`: the first
decisive scope wins, and a loop that finishes allows the query. -/
def firstDecision (smart : String → Guardrails → String → String → String)
    (content : String) : List Scope → Bool × Option String
  | [] => (true, none)
  | s :: rest =>
    match scopeDecision smart content s with
    | some d => d
    | none => firstDecision smart content rest

/-- Embeds `GuardrailService.validate_query(bot, message_content)`. -/
def validate_query (smart : String → Guardrails → String → String → String)
    (bot : Bot) (content : String) : Bool × Option String :=
  if bot.scopes = [] then (true, none)
  else firstDecision smart content bot.scopes

/-- A `Dataset` row, restricted to the fields retrieval reads. -/
structure DatasetRow where
  id : String
  tenant_id : String := ""
  is_active : Bool := true
  name : String := ""
  tags : List String := []
  meta : List (String × String) := []
  deriving Repr, DecidableEq

/-- A `Document` row, restricted to the fields retrieval reads. -/
structure DocRow where
  id : String
  dataset_id : String
  title : String := ""
  status : String := "completed"
  source_type : String := ""
  deriving Repr, DecidableEq

/-- A `Chunk` row: text plus an optional embedding vector (null until the
processing pipeline has embedded it). -/
structure ChunkRow where
  id : String
  document_id : String
  content : String := ""
  embedding : Option (List Int) := none
  chunk_index : Nat := 0
  deriving Repr, DecidableEq

/-- The chunk store the retrieval queries run against. -/
structure DB where
  datasets : List DatasetRow := []
  documents : List DocRow := []
  chunks : List ChunkRow := []
  deriving Repr, DecidableEq

/-- The denormalised metadata dict built on each citation
(retrieval_service.py lines 188-195), restricted to the provenance
fields. -/
structure CitationMeta where
  chunk_index : Nat := 0
  dataset_id : String := ""
  dataset_name : String := ""
  deriving Repr, DecidableEq

/-- The `Citation` schema (app/schemas.py). -/
structure Citation where
  document_id : String
  document_title : String
  chunk_id : String
  content : String
  score : Frac
  metadata : CitationMeta := {}
  deriving Repr, DecidableEq

/-- The `JOIN Document` step: a chunk's owning document. -/
def docOf (db : DB) (c : ChunkRow) : Option DocRow :=
  db.documents.find? (fun d => d.id == c.document_id)

/-- The `JOIN Dataset` step: a document's owning dataset. -/
def datasetOf (db : DB) (d : DocRow) : Option DatasetRow :=
  db.datasets.find? (fun ds => ds.id == d.dataset_id)

/-- Both joins of the chunk queries; `none` when a parent row is missing
(the SQL inner join drops such chunks). -/
def joinRow (db : DB) (c : ChunkRow) : Option (DocRow × DatasetRow) :=
  match docOf db c with
  | none => none
  | some d =>
    match datasetOf db d with
    | none => none
    | some ds => some (d, ds)

/-- WHERE clause of the executed keyword query (`basic_query`,
retrieval_service.py lines 119-141): tenant-owned active dataset,
completed document, content containing the lowered query or its first
word (ILIKE), and — when the bot has assigned datasets — dataset
membership.  Note this executed query has no `Chunk.embedding` filter
and no scope filter: those appear only on the earlier `chunk_query`,
which is built but never executed. -/
def basicQueryWhere (db : DB) (tenant_id query_lower : String)
    (bot_datasets : List DatasetRow) (c : ChunkRow) : Bool :=
  match joinRow db c with
  | none => false
  | some (d, ds) =>
    ds.tenant_id == tenant_id && ds.is_active && d.status == "completed" &&
    (occursIn query_lower (lowerStr c.content) ||
      (match pyWords query_lower with
       | [] => false
       | w :: _ => occursIn w (lowerStr c.content))) &&
    (bot_datasets.isEmpty || (bot_datasets.map (fun b => b.id)).contains ds.id)

/-- The chunk rows produced by the executed keyword query, in store
order, truncated by `LIMIT limit`. -/
def keywordChunks (db : DB) (query tenant_id : String)
    (bot_datasets : List DatasetRow) (limit : Nat) : List ChunkRow :=
  let query_lower := trimStr (lowerStr query)
  (db.chunks.filter (basicQueryWhere db tenant_id query_lower bot_datasets)).take limit

/-- WHERE clause of the ultimate-fallback query (retrieval_service.py
lines 152-165): chunks of the bot's datasets with active dataset and
completed document (note: no tenant filter and no content condition). -/
def fallbackWhere (db : DB) (bot_datasets : List DatasetRow) (c : ChunkRow) : Bool :=
  match joinRow db c with
  | none => false
  | some (d, ds) =>
    (bot_datasets.map (fun b => b.id)).contains ds.id &&
    ds.is_active && d.status == "completed"

/-- The chunk rows produced by the ultimate-fallback query, `LIMIT 3`. -/
def fallbackChunks (db : DB) (bot_datasets : List DatasetRow) : List ChunkRow :=
  (db.chunks.filter (fallbackWhere db bot_datasets)).take 3

/-- Citation construction (retrieval_service.py lines 176-197); the
score is the literal `min(0.95, max(0.1, 0.8))` placeholder.  The
`none` join branch is unreachable for chunks passing either WHERE
clause. -/
def mkCitation (db : DB) (c : ChunkRow) : Citation :=
  let score := fmin ⟨95, 100⟩ (fmax ⟨1, 10⟩ ⟨8, 10⟩)
  match joinRow db c with
  | some (d, ds) =>
    { document_id := d.id, document_title := d.title, chunk_id := c.id,
      content := c.content, score := score,
      metadata := { chunk_index := c.chunk_index, dataset_id := d.dataset_id,
                    dataset_name := ds.name } }
  | none =>
    { document_id := "", document_title := "", chunk_id := c.id,
      content := c.content, score := score, metadata := {} }

/-- Dataset predicate of the scope-filter conditions assembled (but
never executed) at retrieval_service.py lines 72-97: the OR, over all
active scopes with filters, of tag containment and metadata equality
conditions. -/
def datasetMatchesScopeFilters (bot_scopes : List Scope) (ds : DatasetRow) : Bool :=
  bot_scopes.any (fun s =>
    s.is_active &&
    (match s.dataset_filters with
     | none => false
     | some f =>
       ((f.tags.getD []).any (fun t => ds.tags.contains t)) ||
       (f.metaPairs.any (fun kv =>
         match ds.meta.lookup kv.fst with
         | some v => v == kv.snd
         | none => false))))

/-- Embeds `RetrievalService.retrieve_context`.  The booleans are error
oracles for the three fallible steps: `embedOk` is the
`_generate_embedding` provider call (whose result is otherwise unused —
the vector query is dead code), `kwOk` the keyword-search execution,
`fbOk` the ultimate-fallback execution.  A `false` oracle is the step
raising; the enclosing handlers then return what the source returns.
`bot_scopes` is accepted but, like in the executed source path, never
consulted. -/
def retrieve_context (embedOk kwOk fbOk : Bool) (db : DB)
    (query tenant_id : String) (bot_scopes : List Scope)
    (bot_datasets : List DatasetRow) (limit : Nat) : List Citation :=
  if embedOk = false then []
  else if kwOk = true then
    (keywordChunks db query tenant_id bot_datasets limit).map (mkCitation db)
  else if bot_datasets ≠ [] then
    if fbOk = true then (fallbackChunks db bot_datasets).map (mkCitation db)
    else []
  else []

/-- The `ChatMessage` schema (app/schemas.py). -/
structure ChatMessage where
  role : String
  content : String
  deriving Repr, DecidableEq

/-- The `TokenUsage` schema (app/schemas.py). -/
structure TokenUsage where
  prompt_tokens : Nat := 0
  completion_tokens : Nat := 0
  total_tokens : Nat := 0
  deriving Repr, DecidableEq

/-- A persisted `Message` row of a conversation, restricted to the
fields `_save_conversation_messages` writes. -/
structure MessageRow where
  role : String
  content : String
  sequence_number : Nat
  citations : List Citation := []
  token_usage : Option TokenUsage := none
  deriving Repr, DecidableEq

/-- The greatest stored sequence number (the source reads it via
`ORDER BY sequence_number DESC LIMIT 1`). -/
def maxSeq (conv : List MessageRow) : Nat :=
  conv.foldr (fun m acc => max m.sequence_number acc) 0

/-- `next_sequence` initialisation of `_save_conversation_messages`:
`last.sequence_number + 1`, or `1` on an empty conversation. -/
def nextSeq (conv : List MessageRow) : Nat :=
  if conv.isEmpty then 1 else maxSeq conv + 1

/-- The request-message loop of `_save_conversation_messages`: each
message is stored with the running sequence number, which increments. -/
def numberFrom (k : Nat) : List ChatMessage → List MessageRow
  | [] => []
  | m :: rest => { role := m.role, content := m.content, sequence_number := k } :: numberFrom (k + 1) rest

/-- Embeds `_save_conversation_messages` (chat.py lines 705-752): the
request messages then the assistant response are appended with
consecutive sequence numbers continuing from the stored maximum; the
response row carries the citations and token usage. -/
def save_conversation_messages (conv : List MessageRow)
    (request_messages : List ChatMessage) (response_message : ChatMessage)
    (citations : List Citation) (token_usage : TokenUsage) : List MessageRow :=
  let k := nextSeq conv
  conv ++ numberFrom k request_messages ++
    [{ role := response_message.role, content := response_message.content,
       sequence_number := k + request_messages.length,
       citations := citations, token_usage := some token_usage }]

/-- The hard-coded out-of-domain keyword list of
`ChatService._is_query_out_of_scope`. -/
def clearlyOutOfScope : List String :=
  ["weather", "forecast", "temperature", "rain", "snow",
   "cooking", "recipe", "food", "restaurant",
   "sports", "game", "score", "team",
   "movie", "film", "actor", "cinema",
   "politics", "election", "government", "president",
   "medical", "doctor", "health", "medicine", "symptom",
   "legal", "law", "lawyer", "court", "lawsuit"]

/-- The per-scope topic scan of `ChatService._is_query_out_of_scope`:
for each active scope in order, a verbatim allowed-topic hit decides
in-scope, then a verbatim forbidden-topic hit decides out-of-scope. -/
def topicScan (ql : String) : List Scope → Option Bool
  | [] => none
  | s :: rest =>
    let g := guardrailsOf s
    if g.allowed_topics.any (fun t => occursIn (lowerStr t) ql) then some false
    else if g.forbidden_topics.any (fun t => occursIn (lowerStr t) ql) then some true
    else topicScan ql rest

/-- Embeds `ChatService._is_query_out_of_scope(bot, user_query)` over
the bot's active scopes.  After the topic scan and the hard-coded
keyword check, the source's math-bot follow-up branch (lines 300-332)
returns `False` on every path, so the residue is `false`. -/
def is_query_out_of_scope (bot : Bot) (user_query : String) : Bool :=
  let scopes := bot.scopes.filter (fun s => s.is_active)
  if scopes.isEmpty then false
  else
    let ql := lowerStr user_query
    match topicScan ql scopes with
    | some b => b
    | none =>
      if clearlyOutOfScope.any (fun i => occursIn i ql) then true
      else false

/-- Embeds `ChatService.generate_response(bot, messages,
context_citations)`.  `refusalText` is the oracle for
`_get_scope_refusal_message` (an LLM phrasing call with a deterministic
random-sampled fallback); `mainLLM` is the oracle for the provider
completion call on `bot.model` — `none` means the provider raised, which
the source re-raises.  The result is `none` exactly when the provider
error propagates. -/
def generate_response (refusalText : String)
    (mainLLM : Option (String × TokenUsage)) (bot : Bot)
    (messages : List ChatMessage) (context_citations : List Citation) :
    Option (ChatMessage × TokenUsage) :=
  let refusalStep : Option (ChatMessage × TokenUsage) :=
    if context_citations = [] then
      let user_query := ((messages.getLast?).map (fun m => m.content)).getD ""
      if is_query_out_of_scope bot user_query = true ∧ refusalText ≠ "" then
        some ({ role := "assistant", content := refusalText },
          { prompt_tokens := 0,
            completion_tokens := (pyWords refusalText).length,
            total_tokens := (pyWords refusalText).length })
      else none
    else none
  match refusalStep with
  | some r => some r
  | none =>
    match mainLLM with
    | none => none
    | some (text, usage) => some ({ role := "assistant", content := text }, usage)

/-- Embeds the non-streaming chat turn `_chat_completion` (chat.py lines
446-520) over an explicit conversation state: guardrail check on the
last user message, short-circuit on block (returning the redirect with
no citations, zero usage, and — notably — no persistence), otherwise
retrieval (`retrieved` is the citation list produced by
`retrieve_context`), generation, and persistence.  `none` models the
provider error propagating as an HTTP failure. -/
def chat_completion (smart : String → Guardrails → String → String → String)
    (refusalText : String) (mainLLM : Option (String × TokenUsage))
    (retrieved : List Citation) (bot : Bot)
    (request_messages : List ChatMessage) (conv : List MessageRow) :
    Option ((ChatMessage × List Citation × TokenUsage) × List MessageRow) :=
  let lastUser := request_messages.reverse.find? (fun m => m.role == "user")
  let blocked : Option (Option String) :=
    match lastUser with
    | none => none
    | some lu =>
      match validate_query smart bot lu.content with
      | (false, refusal) => some refusal
      | (true, _) => none
  match blocked with
  | some refusal =>
    some (({ role := "assistant", content := refusal.getD "" }, [],
      { prompt_tokens := 0, completion_tokens := 0, total_tokens := 0 }), conv)
  | none =>
    let citations := match lastUser with
      | some _ => retrieved
      | none => []
    match generate_response refusalText mainLLM bot request_messages citations with
    | none => none
    | some (response_message, token_usage) =>
      some ((response_message, citations, token_usage),
        save_conversation_messages conv request_messages response_message citations token_usage)

/-- Constant oracle for `_get_smart_response`, used to instantiate
concrete runs. -/
def smartOracle : String → Guardrails → String → String → String :=
  fun _ _ _ _ => "redirect-text"

/-- First scope of the C1 counterexample bot: moderate, allowed topic
"alpha beta". -/
def c1scope1 : Scope :=
  { name := "s1",
    guardrails := some { strictness_level := some "moderate",
                         allowed_topics := ["alpha beta"] } }

/-- Second scope of the C1 counterexample bot: its forbidden topic "zzz"
matches the query verbatim. -/
def c1scope2 : Scope :=
  { name := "s2",
    guardrails := some { strictness_level := some "strict",
                         forbidden_topics := ["zzz"] } }

/-- Bot whose first (moderate) scope partially matches and early-allows
before the second scope's forbidden topic is ever consulted. -/
def botC1 : Bot := { scopes := [c1scope1, c1scope2] }

/-- Single-scope bot whose only scope forbids "zzz". -/
def botC1W : Bot :=
  { scopes := [{ name := "w", guardrails := some { forbidden_topics := ["zzz"] } }] }

/-- Strict single-scope math bot (the spec's own test vector). -/
def botC6 : Bot :=
  { scopes := [{ name := "math",
                 guardrails := some { strictness_level := some "strict",
                                      allowed_topics := ["mathematics"] } }] }

/-- Store with a single matching chunk whose embedding is null: its
document is completed and its dataset active, but it was never
embedded. -/
def dbNull : DB :=
  { datasets := [{ id := "d1", tenant_id := "t1" }],
    documents := [{ id := "doc1", dataset_id := "d1", title := "Doc" }],
    chunks := [{ id := "c1", document_id := "doc1", content := "alpha facts",
                 embedding := none }] }

/-- Store with one embedded chunk, used to instantiate retrieval runs. -/
def dbEmb : DB :=
  { datasets := [{ id := "dw", tenant_id := "tw" }],
    documents := [{ id := "docw", dataset_id := "dw", title := "W" }],
    chunks := [{ id := "cw", document_id := "docw", content := "hello world",
                 embedding := some [1] }] }

/-- Scope whose `dataset_filters` require the tag "premium". -/
def c7scope : Scope :=
  { name := "f", dataset_filters := some { tags := some ["premium"] } }

/-- Dataset tagged "basic" only — it does not satisfy `c7scope`'s
filters. -/
def dsOther : DatasetRow := { id := "d2", tenant_id := "t1", tags := ["basic"] }

/-- Store whose only dataset is `dsOther`, with one matching chunk. -/
def dbC7 : DB :=
  { datasets := [dsOther],
    documents := [{ id := "doc2", dataset_id := "d2", title := "Other" }],
    chunks := [{ id := "c2", document_id := "doc2", content := "alpha beta",
                 embedding := some [1] }] }

/-- The citation the keyword path produces from `dbEmb`'s chunk. -/
def citW : Citation :=
  { document_id := "docw", document_title := "W", chunk_id := "cw",
    content := "hello world", score := ⟨8, 10⟩,
    metadata := { chunk_index := 0, dataset_id := "dw", dataset_name := "" } }

/-- Moderate support bot with one active scope allowing "billing". -/
def botC9 : Bot :=
  { name := "Support Bot",
    scopes := [{ name := "sup",
                 guardrails := some { strictness_level := some "moderate",
                                      allowed_topics := ["billing"] } }] }

/-- A bot with no scopes configured at all. -/
def botNoScopes : Bot := { name := "Helper", scopes := [] }

/-- An inactive scope is never consulted. -/
theorem scopeDecision_inactive (smart : String → Guardrails → String → String → String)
    (q : String) (x : Scope) (h : x.is_active = false) :
    scopeDecision smart q x = none := by
  unfold scopeDecision
  rw [h]
  simp

/-- The scope loop skips a prefix of non-decisive scopes. -/
theorem firstDecision_append_none (smart : String → Guardrails → String → String → String)
    (q : String) (pre rest : List Scope)
    (hpre : ∀ x ∈ pre, scopeDecision smart q x = none) :
    firstDecision smart q (pre ++ rest) = firstDecision smart q rest := by
  induction pre with
  | nil => rfl
  | cons a l ih =>
    have ha := hpre a (List.mem_cons_self a l)
    simp only [List.cons_append, firstDecision, ha]
    exact ih (fun x hx => hpre x (List.mem_cons_of_mem a hx))

/-- A loop over only non-decisive scopes allows the query. -/
theorem firstDecision_all_none (smart : String → Guardrails → String → String → String)
    (q : String) (l : List Scope)
    (h : ∀ x ∈ l, scopeDecision smart q x = none) :
    firstDecision smart q l = (true, none) := by
  have := firstDecision_append_none smart q l [] h
  rw [List.append_nil] at this
  rw [this]
  rfl

/-- An active scope whose forbidden topics match decides to block,
whatever its strictness level. -/
theorem scopeDecision_forbidden (smart : String → Guardrails → String → String → String)
    (q : String) (scope : Scope) (hact : scope.is_active = true)
    (hforb : (guardrailsOf scope).forbidden_topics ≠ [])
    (hmatch : matches_topics q (guardrailsOf scope).forbidden_topics = true) :
    scopeDecision smart q scope =
      some (false, some (smart q (guardrailsOf scope) scope.name "forbidden")) := by
  unfold scopeDecision
  rw [hact]
  simp [hforb, hmatch]

/-- C1 (amended): if an active scope has a non-empty `forbidden_topics`
list matching the query with strength above `0.3`, and no scope listed
before it is decisive (in particular none early-allows through the
moderate partial-match branch), then `validate_query` returns
`allowed=False`, regardless of that scope's strictness level and of the
scopes listed after it. -/
theorem c1_forbidden_blocks (smart : String → Guardrails → String → String → String)
    (q : String) (bot : Bot) (pre post : List Scope) (scope : Scope)
    (hsc : bot.scopes = pre ++ scope :: post)
    (hpre : ∀ x ∈ pre, scopeDecision smart q x = none)
    (hact : scope.is_active = true)
    (hforb : (guardrailsOf scope).forbidden_topics ≠ [])
    (hmatch : matches_topics q (guardrailsOf scope).forbidden_topics = true) :
    (validate_query smart bot q).1 = false := by
  have hne : bot.scopes ≠ [] := by
    rw [hsc]
    intro h
    rcases List.append_eq_nil.mp h with ⟨-, h2⟩
    exact List.cons_ne_nil _ _ h2
  unfold validate_query
  rw [if_neg hne, hsc, firstDecision_append_none smart q pre _ hpre]
  simp only [firstDecision, scopeDecision_forbidden smart q scope hact hforb hmatch]

/-- C1 witness: a bot whose single active scope forbids "zzz" blocks the
query "hello zzz". -/
theorem c1_forbidden_blocks_witness :
    (validate_query smartOracle botC1W "hello zzz").1 = false :=
  c1_forbidden_blocks smartOracle "hello zzz" botC1W [] []
    { name := "w", guardrails := some { forbidden_topics := ["zzz"] } }
    rfl (by intro x hx; cases hx) rfl (by decide) (by decide)

/-- C1 counterexample: on `botC1` the query "alpha zzz" is allowed even
though the second active scope's non-empty forbidden topics match it
with strength above `0.3`, because the first scope's moderate
partial-match branch returns `allowed` first. -/
theorem c1_counterexample :
    validate_query smartOracle botC1 "alpha zzz" = (true, none) ∧
    c1scope2 ∈ botC1.scopes ∧
    c1scope2.is_active = true ∧
    (guardrailsOf c1scope2).forbidden_topics ≠ [] ∧
    matches_topics "alpha zzz" (guardrailsOf c1scope2).forbidden_topics = true := by
  exact ⟨by decide, by decide, by decide, by decide, by decide⟩

/-- C6: with no scopes configured every query is allowed with no
message; with a single active scope having allowed topics and
non-matching forbidden topics, blocking happens exactly below the
strictness threshold: `0.7` for strict, `0.3` for moderate, `0.1` for
lenient. -/
theorem c6_strictness_thresholds (smart : String → Guardrails → String → String → String)
    (bot : Bot) (q : String) :
    (bot.scopes = [] → validate_query smart bot q = (true, none)) ∧
    (∀ pre s post, bot.scopes = pre ++ s :: post →
      (∀ x ∈ pre, x.is_active = false) →
      (∀ x ∈ post, x.is_active = false) →
      s.is_active = true →
      (guardrailsOf s).allowed_topics ≠ [] →
      matches_topics q (guardrailsOf s).forbidden_topics = false →
      (((guardrailsOf s).strictness_level.getD "moderate" = "strict" →
          ((validate_query smart bot q).1 = false ↔
            (topicMatchStrength q (guardrailsOf s).allowed_topics).lt ⟨7, 10⟩ = true)) ∧
       ((guardrailsOf s).strictness_level.getD "moderate" = "moderate" →
          ((validate_query smart bot q).1 = false ↔
            (topicMatchStrength q (guardrailsOf s).allowed_topics).lt ⟨3, 10⟩ = true)) ∧
       ((guardrailsOf s).strictness_level.getD "moderate" = "lenient" →
          ((validate_query smart bot q).1 = false ↔
            (topicMatchStrength q (guardrailsOf s).allowed_topics).lt ⟨1, 10⟩ = true)))) := by
  constructor
  · intro h
    unfold validate_query
    rw [if_pos h]
  · intro pre s post hsc hpre hpost hact hallow hnf
    have hne : bot.scopes ≠ [] := by
      rw [hsc]
      intro h
      rcases List.append_eq_nil.mp h with ⟨-, h2⟩
      exact List.cons_ne_nil _ _ h2
    have hbase : validate_query smart bot q =
        match scopeDecision smart q s with
        | some d => d
        | none => (true, none) := by
      unfold validate_query
      rw [if_neg hne, hsc,
        firstDecision_append_none smart q pre _
          (fun x hx => scopeDecision_inactive smart q x (hpre x hx))]
      simp only [firstDecision]
      rw [firstDecision_all_none smart q post
        (fun x hx => scopeDecision_inactive smart q x (hpost x hx))]
    have hforbcond : ¬((guardrailsOf s).forbidden_topics ≠ [] ∧
        matches_topics q (guardrailsOf s).forbidden_topics = true) := by
      intro h
      rw [hnf] at h
      exact Bool.false_ne_true h.2
    refine ⟨?_, ?_, ?_⟩
    · intro hlvl
      cases hq : (topicMatchStrength q (guardrailsOf s).allowed_topics).lt ⟨7, 10⟩ with
      | true =>
        have : scopeDecision smart q s =
            some (false, some (smart q (guardrailsOf s) s.name "off_topic")) := by
          unfold scopeDecision
          rw [hact]
          simp [hforbcond, hallow, hlvl, hq]
        rw [hbase, this]
        simp
      | false =>
        have : scopeDecision smart q s = none := by
          unfold scopeDecision
          rw [hact]
          simp [hforbcond, hallow, hlvl, hq]
        rw [hbase, this]
        simp
    · intro hlvl
      have hlvl2 : (guardrailsOf s).strictness_level.getD "moderate" ≠ "strict" := by
        rw [hlvl]; decide
      cases hq : (topicMatchStrength q (guardrailsOf s).allowed_topics).lt ⟨3, 10⟩ with
      | true =>
        have : scopeDecision smart q s =
            some (false, some (smart q (guardrailsOf s) s.name "redirect")) := by
          unfold scopeDecision
          rw [hact]
          simp [hforbcond, hallow, hlvl, hlvl2, hq]
        rw [hbase, this]
        simp
      | false =>
        by_cases hq5 : (topicMatchStrength q (guardrailsOf s).allowed_topics).lt ⟨5, 10⟩ = true
        · have : scopeDecision smart q s = some (true, none) := by
            unfold scopeDecision
            rw [hact]
            simp [hforbcond, hallow, hlvl, hlvl2, hq, hq5]
          rw [hbase, this]
          simp
        · have : scopeDecision smart q s = none := by
            unfold scopeDecision
            rw [hact]
            simp [hforbcond, hallow, hlvl, hlvl2, hq, hq5]
          rw [hbase, this]
          simp
    · intro hlvl
      have hlvl2 : (guardrailsOf s).strictness_level.getD "moderate" ≠ "strict" := by
        rw [hlvl]; decide
      have hlvl3 : (guardrailsOf s).strictness_level.getD "moderate" ≠ "moderate" := by
        rw [hlvl]; decide
      cases hq : (topicMatchStrength q (guardrailsOf s).allowed_topics).lt ⟨1, 10⟩ with
      | true =>
        have : scopeDecision smart q s =
            some (false, some (smart q (guardrailsOf s) s.name "gentle_redirect")) := by
          unfold scopeDecision
          rw [hact]
          simp [hforbcond, hallow, hlvl, hlvl2, hlvl3, hq]
        rw [hbase, this]
        simp
      | false =>
        have : scopeDecision smart q s = none := by
          unfold scopeDecision
          rw [hact]
          simp [hforbcond, hallow, hlvl, hlvl2, hlvl3, hq]
        rw [hbase, this]
        simp

/-- C6 witness: the strict math bot blocks "What is the capital of
France?" (match strength `0` is below `0.7`). -/
theorem c6_strictness_thresholds_witness :
    (validate_query smartOracle botC6 "What is the capital of France?").1 = false :=
  (((c6_strictness_thresholds smartOracle botC6 "What is the capital of France?").2
      [] { name := "math",
           guardrails := some { strictness_level := some "strict",
                                allowed_topics := ["mathematics"] } } []
      rfl (by intro x hx; cases hx) (by intro x hx; cases hx) rfl
      (by decide) (by decide)).1 rfl).mpr (by decide)

/-- The request-message loop numbers messages consecutively from its
starting value. -/
theorem numberFrom_map_seq (reqs : List ChatMessage) : ∀ k : Nat,
    (numberFrom k reqs).map (fun m => m.sequence_number) = List.range' k reqs.length := by
  induction reqs with
  | nil => intro k; rfl
  | cons a l ih =>
    intro k
    simp only [numberFrom, List.map_cons, List.length_cons, List.range'_succ, ih (k + 1)]

/-- Maximum of a consecutive run starting at `s`. -/
theorem foldr_max_range (n : Nat) : ∀ s : Nat,
    (List.range' s (n + 1)).foldr max 0 = s + n := by
  induction n with
  | zero => intro s; simp [List.range'_one]
  | succ m ih =>
    intro s
    rw [List.range'_succ]
    simp only [List.foldr_cons, ih (s + 1)]
    omega

/-- On a gapless conversation `1..m`, the next sequence number is
`m + 1`. -/
theorem nextSeq_of_range (l : List MessageRow) (m : Nat)
    (h : l.map (fun x => x.sequence_number) = List.range' 1 m) :
    nextSeq l = m + 1 := by
  have hmax : maxSeq l = (l.map (fun x => x.sequence_number)).foldr max 0 := by
    unfold maxSeq
    rw [List.foldr_map]
  cases m with
  | zero =>
    have : l = [] := by
      cases l with
      | nil => rfl
      | cons a t => simp [List.range'] at h
    rw [this]
    rfl
  | succ k =>
    have hne : l ≠ [] := by
      intro he
      rw [he] at h
      simp [List.range'_succ] at h
    unfold nextSeq
    rw [if_neg (by simp [List.isEmpty_iff, hne]), hmax, h, foldr_max_range k 1]
    omega

/-- C5: on a conversation whose stored sequence numbers are exactly
`1..n`, `_save_conversation_messages` appends the request messages and
the assistant response with the consecutive numbers `n+1, ...`, so the
saved conversation is exactly `1..n+len+1` (monotonic and gapless), the
assistant row gets number `n+len+1` (one above the last request
message), and the next turn continues from `n+len+2`. -/
theorem c5_sequence_gapless (conv : List MessageRow) (reqs : List ChatMessage)
    (resp : ChatMessage) (cits : List Citation) (usage : TokenUsage) (n : Nat)
    (h : conv.map (fun m => m.sequence_number) = List.range' 1 n) :
    ((save_conversation_messages conv reqs resp cits usage).map (fun m => m.sequence_number)
        = List.range' 1 (n + reqs.length + 1)) ∧
    ((save_conversation_messages conv reqs resp cits usage).getLast?
        = some { role := resp.role, content := resp.content,
                 sequence_number := n + reqs.length + 1,
                 citations := cits, token_usage := some usage }) ∧
    nextSeq (save_conversation_messages conv reqs resp cits usage)
        = n + reqs.length + 2 := by
  have hk : nextSeq conv = n + 1 := nextSeq_of_range conv n h
  have hmap : (save_conversation_messages conv reqs resp cits usage).map
      (fun m => m.sequence_number) = List.range' 1 (n + reqs.length + 1) := by
    simp only [save_conversation_messages, hk]
    simp only [List.map_append, numberFrom_map_seq, List.map_cons, List.map_nil, h]
    have h1 : [n + 1 + reqs.length] = List.range' (n + 1 + reqs.length) 1 := by
      simp [List.range'_one]
    rw [h1, List.append_assoc, List.range'_append_1]
    have h2 : n + 1 = 1 + n := Nat.add_comm n 1
    rw [h2, List.range'_append_1]
    congr 1
    omega
  refine ⟨hmap, ?_, ?_⟩
  · simp only [save_conversation_messages, hk]
    have h3 : n + 1 + reqs.length = n + reqs.length + 1 := by omega
    rw [h3, List.getLast?_concat]
  · have := nextSeq_of_range (save_conversation_messages conv reqs resp cits usage)
      (n + reqs.length + 1) hmap
    omega

/-- C5 witness: starting from an empty conversation, saving one user
message and the assistant reply yields sequence numbers `[1, 2]` and the
next turn would start at `3`. -/
theorem c5_sequence_gapless_witness :
    ((save_conversation_messages [] [{ role := "user", content := "hi" }]
        { role := "assistant", content := "hello" } [] {}).map (fun m => m.sequence_number)
        = List.range' 1 2) ∧
    ((save_conversation_messages [] [{ role := "user", content := "hi" }]
        { role := "assistant", content := "hello" } [] {}).getLast?
        = some { role := "assistant", content := "hello", sequence_number := 2,
                 citations := [], token_usage := some {} }) ∧
    nextSeq (save_conversation_messages [] [{ role := "user", content := "hi" }]
        { role := "assistant", content := "hello" } [] {}) = 3 :=
  c5_sequence_gapless [] [{ role := "user", content := "hi" }]
    { role := "assistant", content := "hello" } [] {} 0 rfl

/-- Every citation names its chunk. -/
theorem mkCitation_chunk_id (db : DB) (ch : ChunkRow) :
    (mkCitation db ch).chunk_id = ch.id := by
  simp only [mkCitation]
  split <;> rfl

/-- Every citation carries the placeholder score, which evaluates to
`0.8`. -/
theorem mkCitation_score (db : DB) (ch : ChunkRow) :
    (mkCitation db ch).score = ⟨8, 10⟩ := by
  simp only [mkCitation]
  split <;> rfl

/-- A found dataset row has the looked-up key. -/
theorem datasetOf_id (db : DB) (d : DocRow) (dset : DatasetRow)
    (h : datasetOf db d = some dset) : dset.id = d.dataset_id := by
  unfold datasetOf at h
  have := List.find?_some h
  simpa using this

/-- The dataset-id stored on a citation's metadata is the document's. -/
theorem mkCitation_dataset_id (db : DB) (ch : ChunkRow) (d : DocRow) (dset : DatasetRow)
    (hdoc : docOf db ch = some d) (hds : datasetOf db d = some dset) :
    (mkCitation db ch).metadata.dataset_id = d.dataset_id := by
  simp [mkCitation, joinRow, hdoc, hds]

/-- Inverting a successful join. -/
theorem joinRow_some (db : DB) (ch : ChunkRow) (d : DocRow) (dset : DatasetRow)
    (hj : joinRow db ch = some (d, dset)) :
    docOf db ch = some d ∧ datasetOf db d = some dset := by
  unfold joinRow at hj
  cases h1 : docOf db ch with
  | none => simp [h1] at hj
  | some d2 =>
    simp only [h1] at hj
    cases h2 : datasetOf db d2 with
    | none => simp [h2] at hj
    | some ds2 =>
      simp only [h2, Option.some.injEq, Prod.mk.injEq] at hj
      obtain ⟨rfl, rfl⟩ := hj
      exact ⟨rfl, h2⟩

/-- Every returned citation comes from a stored chunk passing either the
keyword WHERE clause (primary path) or, when the keyword search errors
and the bot has datasets, the fallback WHERE clause. -/
theorem retrieve_mem (e k f : Bool) (db : DB) (q t : String) (scopes : List Scope)
    (ds : List DatasetRow) (lim : Nat) (c : Citation)
    (hc : c ∈ retrieve_context e k f db q t scopes ds lim) :
    ∃ ch, ch ∈ db.chunks ∧ c = mkCitation db ch ∧
      ((k = true ∧ basicQueryWhere db t (trimStr (lowerStr q)) ds ch = true) ∨
       (k = false ∧ ds ≠ [] ∧ fallbackWhere db ds ch = true)) := by
  unfold retrieve_context at hc
  by_cases he : e = false
  · rw [if_pos he] at hc
    cases hc
  · rw [if_neg he] at hc
    by_cases hk : k = true
    · rw [if_pos hk] at hc
      rcases List.mem_map.mp hc with ⟨ch, hch, heq⟩
      simp only [keywordChunks] at hch
      rcases List.mem_filter.mp (List.take_subset _ _ hch) with ⟨hmem, hpred⟩
      exact ⟨ch, hmem, heq.symm, Or.inl ⟨hk, hpred⟩⟩
    · rw [if_neg hk] at hc
      by_cases hds : ds ≠ []
      · rw [if_pos hds] at hc
        by_cases hf : f = true
        · rw [if_pos hf] at hc
          rcases List.mem_map.mp hc with ⟨ch, hch, heq⟩
          simp only [fallbackChunks] at hch
          rcases List.mem_filter.mp (List.take_subset _ _ hch) with ⟨hmem, hpred⟩
          exact ⟨ch, hmem, heq.symm, Or.inr ⟨Bool.eq_false_iff.mpr hk ▸ rfl, hds, hpred⟩⟩
        · rw [if_neg hf] at hc
          cases hc
      · rw [if_neg hds] at hc
        cases hc

/-- Unpacking the keyword WHERE clause. -/
theorem basicQueryWhere_extract (db : DB) (t ql : String) (ds : List DatasetRow)
    (ch : ChunkRow) (h : basicQueryWhere db t ql ds ch = true) :
    ∃ d dset, docOf db ch = some d ∧ datasetOf db d = some dset ∧
      dset.tenant_id = t ∧ dset.is_active = true ∧ d.status = "completed" ∧
      (ds = [] ∨ dset.id ∈ ds.map (fun b => b.id)) := by
  unfold basicQueryWhere at h
  cases hj : joinRow db ch with
  | none =>
    rw [hj] at h
    cases h
  | some pair =>
    obtain ⟨d, dset⟩ := pair
    rw [hj] at h
    simp only [Bool.and_eq_true, Bool.or_eq_true, beq_iff_eq,
      List.isEmpty_iff] at h
    obtain ⟨⟨⟨⟨ht, hact⟩, hstat⟩, -⟩, hds⟩ := h
    obtain ⟨hdoc, hdset⟩ := joinRow_some db ch d dset hj
    exact ⟨d, dset, hdoc, hdset, ht, hact, hstat,
      hds.imp_right (fun hcon => List.mem_of_elem_eq_true hcon)⟩

/-- Unpacking the fallback WHERE clause. -/
theorem fallbackWhere_extract (db : DB) (ds : List DatasetRow) (ch : ChunkRow)
    (h : fallbackWhere db ds ch = true) :
    ∃ d dset, docOf db ch = some d ∧ datasetOf db d = some dset ∧
      dset.is_active = true ∧ d.status = "completed" ∧
      dset.id ∈ ds.map (fun b => b.id) := by
  unfold fallbackWhere at h
  cases hj : joinRow db ch with
  | none =>
    rw [hj] at h
    cases h
  | some pair =>
    obtain ⟨d, dset⟩ := pair
    rw [hj] at h
    simp only [Bool.and_eq_true, beq_iff_eq] at h
    obtain ⟨⟨hmem, hact⟩, hstat⟩ := h
    obtain ⟨hdoc, hdset⟩ := joinRow_some db ch d dset hj
    exact ⟨d, dset, hdoc, hdset, hact, hstat, List.mem_of_elem_eq_true hmem⟩

/-- C2 (amended): on the executed keyword path, every returned citation
comes from a stored chunk whose owning document is `completed` and whose
dataset is active and owned by the tenant — but nothing constrains the
chunk's embedding, which may be null. -/
theorem c2_citation_provenance (e f : Bool) (db : DB) (q t : String)
    (scopes : List Scope) (ds : List DatasetRow) (lim : Nat) (c : Citation)
    (hc : c ∈ retrieve_context e true f db q t scopes ds lim) :
    ∃ ch d dset, ch ∈ db.chunks ∧ c.chunk_id = ch.id ∧
      docOf db ch = some d ∧ datasetOf db d = some dset ∧
      d.status = "completed" ∧ dset.is_active = true ∧ dset.tenant_id = t := by
  rcases retrieve_mem e true f db q t scopes ds lim c hc with ⟨ch, hmem, hceq, hpred⟩
  rcases hpred with ⟨-, hbasic⟩ | ⟨hk, -⟩
  · rcases basicQueryWhere_extract db t _ ds ch hbasic with ⟨d, dset, h1, h2, h3, h4, h5, -⟩
    refine ⟨ch, d, dset, hmem, ?_, h1, h2, h5, h4, h3⟩
    rw [hceq]
    exact mkCitation_chunk_id db ch
  · cases hk

/-- C2 witness: a concrete run returning one citation, whose provenance
facts the theorem yields. -/
theorem c2_citation_provenance_witness :
    ∃ ch d dset, ch ∈ dbEmb.chunks ∧ citW.chunk_id = ch.id ∧
      docOf dbEmb ch = some d ∧ datasetOf dbEmb d = some dset ∧
      d.status = "completed" ∧ dset.is_active = true ∧ dset.tenant_id = "tw" :=
  c2_citation_provenance true true dbEmb "hello" "tw" [] [] 5 citW (by decide)

/-- C2 counterexample: the chunk "c1" of `dbNull` has a null embedding,
yet the keyword path cites it. -/
theorem c2_counterexample :
    (retrieve_context true true true dbNull "alpha" "t1" [] [] 5).map
        (fun c => c.chunk_id) = ["c1"] ∧
    ∃ ch ∈ dbNull.chunks, ch.id = "c1" ∧ ch.embedding = none := by
  exact ⟨by decide, by decide⟩

/-- C3 (amended): retrieval never propagates an error — but an
embedding-generation failure returns the empty list at once (no keyword
fallback); only a keyword-search error triggers the basic fallback over
the bot's datasets, and when that also errors, or there are no bot
datasets, the empty list is returned. -/
theorem c3_failure_semantics (kw fb : Bool) (db : DB) (q t : String)
    (scopes : List Scope) (ds : List DatasetRow) (lim : Nat) :
    retrieve_context false kw fb db q t scopes ds lim = [] ∧
    retrieve_context true false false db q t scopes ds lim = [] ∧
    retrieve_context true false fb db q t scopes [] lim = [] := by
  refine ⟨rfl, ?_, ?_⟩
  · unfold retrieve_context
    split <;> simp
  · unfold retrieve_context
    simp

/-- C3 counterexample: when the embedding call fails, the result is
empty even though the keyword search over the same store would have
found a chunk — so no substring/keyword fallback happens on that path. -/
theorem c3_counterexample :
    retrieve_context false true true dbNull "alpha" "t1" [] [] 5 = [] ∧
    (keywordChunks dbNull "alpha" "t1" [] 5).map (mkCitation dbNull) ≠ [] := by
  exact ⟨rfl, by decide⟩

/-- C7 (amended): when the bot has explicitly assigned datasets every
returned citation's dataset is one of them (on the keyword path and the
fallback path alike) — but scope `dataset_filters` are never applied:
with no bot datasets, the result is identical whatever the scopes, over
all the tenant's active datasets. -/
theorem c7_dataset_restriction (e k f : Bool) (db : DB) (q t : String)
    (scopes : List Scope) (ds : List DatasetRow) (lim : Nat) :
    (∀ c ∈ retrieve_context e k f db q t scopes ds lim, ds ≠ [] →
       ∃ b ∈ ds, c.metadata.dataset_id = b.id) ∧
    retrieve_context e k f db q t scopes [] lim
      = retrieve_context e k f db q t [] [] lim := by
  constructor
  · intro c hc hds
    rcases retrieve_mem e k f db q t scopes ds lim c hc with ⟨ch, -, hceq, hpred⟩
    have hmain : ∃ d dset, docOf db ch = some d ∧ datasetOf db d = some dset ∧
        dset.id ∈ ds.map (fun b => b.id) := by
      rcases hpred with ⟨-, hbasic⟩ | ⟨-, -, hfb⟩
      · rcases basicQueryWhere_extract db t _ ds ch hbasic with
          ⟨d, dset, h1, h2, -, -, -, hin⟩
        rcases hin with hnil | hin
        · exact absurd hnil hds
        · exact ⟨d, dset, h1, h2, hin⟩
      · rcases fallbackWhere_extract db ds ch hfb with ⟨d, dset, h1, h2, -, -, hin⟩
        exact ⟨d, dset, h1, h2, hin⟩
    rcases hmain with ⟨d, dset, h1, h2, hin⟩
    rcases List.mem_map.mp hin with ⟨b, hb, hbid⟩
    refine ⟨b, hb, ?_⟩
    rw [hceq, mkCitation_dataset_id db ch d dset h1 h2, ← datasetOf_id db d dset h2, hbid]
  · rfl

/-- C7 witness: with the bot dataset "dw" assigned, the returned
citation's dataset is "dw". -/
theorem c7_dataset_restriction_witness :
    ∃ b ∈ [({ id := "dw", tenant_id := "tw" } : DatasetRow)],
      citW.metadata.dataset_id = b.id :=
  (c7_dataset_restriction true true true dbEmb "hello" "tw" []
      [{ id := "dw", tenant_id := "tw" }] 5).1 citW (by decide) (by decide)

/-- C7 counterexample: with no bot datasets and a scope whose
`dataset_filters` require the tag "premium", the executed search still
returns a citation from dataset "d2", which does not satisfy the
filters. -/
theorem c7_counterexample :
    (retrieve_context true true true dbC7 "alpha" "t1" [c7scope] [] 5).map
        (fun c => c.metadata.dataset_id) = ["d2"] ∧
    datasetMatchesScopeFilters [c7scope] dsOther = false ∧
    c7scope.is_active = true ∧ c7scope.dataset_filters ≠ none := by
  exact ⟨by decide, by decide, by decide, by decide⟩

/-- C10: every returned citation carries the constant placeholder score
`0.8`, so no returned citation is ever scored above another. -/
theorem c10_constant_score (e k f : Bool) (db : DB) (q t : String)
    (scopes : List Scope) (ds : List DatasetRow) (lim : Nat) :
    ∀ c ∈ retrieve_context e k f db q t scopes ds lim,
      c.score = ⟨8, 10⟩ ∧
      ∀ c2 ∈ retrieve_context e k f db q t scopes ds lim,
        Frac.lt c.score c2.score = false := by
  intro c hc
  rcases retrieve_mem e k f db q t scopes ds lim c hc with ⟨ch, -, hceq, -⟩
  have hs : c.score = ⟨8, 10⟩ := by
    rw [hceq]
    exact mkCitation_score db ch
  refine ⟨hs, ?_⟩
  intro c2 hc2
  rcases retrieve_mem e k f db q t scopes ds lim c2 hc2 with ⟨ch2, -, hceq2, -⟩
  have hs2 : c2.score = ⟨8, 10⟩ := by
    rw [hceq2]
    exact mkCitation_score db ch2
  rw [hs, hs2]
  decide

/-- C10 witness: the concrete citation of `dbEmb` has score `0.8` and is
not scored above itself. -/
theorem c10_constant_score_witness :
    citW.score = ⟨8, 10⟩ ∧
    ∀ c2 ∈ retrieve_context true true true dbEmb "hello" "tw" [] [] 5,
      Frac.lt citW.score c2.score = false :=
  c10_constant_score true true true dbEmb "hello" "tw" [] [] 5 citW (by decide)

/-- C8: when the guardrail blocks the last user message, the chat turn
returns the redirect as a normal assistant message with an empty
citation list and all-zero token usage (and the conversation is left as
it was). -/
theorem c8_blocked_response (smart : String → Guardrails → String → String → String)
    (refusalText : String) (mainLLM : Option (String × TokenUsage))
    (retrieved : List Citation) (bot : Bot)
    (request_messages : List ChatMessage) (conv : List MessageRow)
    (lu : ChatMessage) (r : String)
    (hfind : request_messages.reverse.find? (fun m => m.role == "user") = some lu)
    (hval : validate_query smart bot lu.content = (false, some r)) :
    chat_completion smart refusalText mainLLM retrieved bot request_messages conv
      = some (({ role := "assistant", content := r }, [],
          { prompt_tokens := 0, completion_tokens := 0, total_tokens := 0 }), conv) := by
  simp only [chat_completion, hfind, hval]
  rfl

/-- C8 witness: the strict math bot blocks the France question; the turn
returns the redirect text with no citations and zero usage. -/
theorem c8_blocked_response_witness :
    chat_completion smartOracle "rt"
        (some ("ans", { prompt_tokens := 3, completion_tokens := 4, total_tokens := 7 }))
        [citW] botC6 [{ role := "user", content := "What is the capital of France?" }] []
      = some (({ role := "assistant", content := "redirect-text" }, [],
          { prompt_tokens := 0, completion_tokens := 0, total_tokens := 0 }), []) :=
  c8_blocked_response smartOracle "rt"
    (some ("ans", { prompt_tokens := 3, completion_tokens := 4, total_tokens := 7 }))
    [citW] botC6 [{ role := "user", content := "What is the capital of France?" }] []
    { role := "user", content := "What is the capital of France?" } "redirect-text"
    (by decide) (by decide)

/-- C4 (amended): a guardrail-blocked turn short-circuits before the
conversation is touched: the redirect is returned but nothing — neither
the user message nor the redirect — is persisted, unlike an allowed
turn's exchange. -/
theorem c4_blocked_not_persisted (smart : String → Guardrails → String → String → String)
    (refusalText : String) (mainLLM : Option (String × TokenUsage))
    (retrieved : List Citation) (bot : Bot)
    (request_messages : List ChatMessage) (conv : List MessageRow)
    (lu : ChatMessage) (r : String)
    (hfind : request_messages.reverse.find? (fun m => m.role == "user") = some lu)
    (hval : validate_query smart bot lu.content = (false, some r)) :
    (chat_completion smart refusalText mainLLM retrieved bot request_messages conv).map
        (fun res => res.2) = some conv := by
  simp only [chat_completion, hfind, hval]
  rfl

/-- C4 witness: the blocked France turn leaves the (empty) conversation
empty. -/
theorem c4_blocked_not_persisted_witness :
    (chat_completion smartOracle "rt" none [] botC6
        [{ role := "user", content := "What is the capital of France?" }] []).map
        (fun res => res.2) = some [] :=
  c4_blocked_not_persisted smartOracle "rt" none [] botC6
    [{ role := "user", content := "What is the capital of France?" }] []
    { role := "user", content := "What is the capital of France?" } "redirect-text"
    (by decide) (by decide)

/-- C4 counterexample: a blocked turn ends with the conversation still
empty — the redirect exchange is not persisted before the turn ends, so
the claimed `blocked → respond_with_redirect → persisted → END` path
does not hold on the code. -/
theorem c4_counterexample :
    (validate_query smartOracle botC6 "What is the capital of France?").1 = false ∧
    chat_completion smartOracle "rt"
        (some ("ans", { prompt_tokens := 1, completion_tokens := 1, total_tokens := 2 }))
        [] botC6 [{ role := "user", content := "What is the capital of France?" }] []
      = some (({ role := "assistant", content := "redirect-text" }, [],
          { prompt_tokens := 0, completion_tokens := 0, total_tokens := 0 }), []) := by
  exact ⟨by decide, by decide⟩

/-- When no allowed topic of any listed scope occurs in the query, the
topic scan cannot decide "in scope". -/
theorem topicScan_no_allowed (ql : String) (l : List Scope)
    (h : ∀ s ∈ l, ∀ t ∈ (guardrailsOf s).allowed_topics,
      occursIn (lowerStr t) ql = false) :
    topicScan ql l ≠ some false := by
  induction l with
  | nil => simp [topicScan]
  | cons a rest ih =>
    simp only [topicScan]
    have ha : ((guardrailsOf a).allowed_topics.any
        (fun t => occursIn (lowerStr t) ql)) = false := by
      rw [List.any_eq_false]
      intro t ht
      simp [h a (List.mem_cons_self a rest) t ht]
    rw [ha]
    simp only [Bool.false_eq_true, if_false]
    cases hf : ((guardrailsOf a).forbidden_topics.any
        (fun t => occursIn (lowerStr t) ql)) with
    | true => simp
    | false =>
      simp only [Bool.false_eq_true, if_false]
      exact ih (fun s hs => h s (List.mem_cons_of_mem a hs))

/-- C9 (amended): with at least one active scope, an empty citation
list, a query containing one of the hard-coded out-of-domain keywords
and containing no active scope's allowed topic verbatim, and a
non-empty generated refusal text, `generate_response` returns the
refusal with `prompt_tokens = 0` and `completion_tokens` equal to the
refusal's word count — independently of the main provider oracle, which
is never consulted. -/
theorem c9_second_gate (bot : Bot) (query : String) (messages : List ChatMessage)
    (refusalText : String)
    (h1 : (bot.scopes.filter (fun s => s.is_active)).isEmpty = false)
    (h2 : ∀ s ∈ bot.scopes, s.is_active = true →
      ∀ t ∈ (guardrailsOf s).allowed_topics,
        occursIn (lowerStr t) (lowerStr query) = false)
    (h3 : clearlyOutOfScope.any (fun i => occursIn i (lowerStr query)) = true)
    (h4 : refusalText ≠ "")
    (h5 : ((messages.getLast?).map (fun m => m.content)).getD "" = query) :
    ∀ mainLLM : Option (String × TokenUsage),
      generate_response refusalText mainLLM bot messages []
        = some ({ role := "assistant", content := refusalText },
            { prompt_tokens := 0, completion_tokens := (pyWords refusalText).length,
              total_tokens := (pyWords refusalText).length }) := by
  intro mainLLM
  have hout : is_query_out_of_scope bot query = true := by
    have hscan : topicScan (lowerStr query) (bot.scopes.filter (fun s => s.is_active))
        ≠ some false := by
      refine topicScan_no_allowed (lowerStr query) _ ?_
      intro s hs t ht
      rcases List.mem_filter.mp hs with ⟨hmem, hact⟩
      exact h2 s hmem hact t ht
    simp only [is_query_out_of_scope, h1, Bool.false_eq_true, if_false]
    cases hts : topicScan (lowerStr query) (bot.scopes.filter (fun s => s.is_active)) with
    | none => simp [hts, h3]
    | some b =>
      cases b with
      | false => exact absurd hts hscan
      | true => simp [hts]
  simp [generate_response, h5, hout, h4]

/-- C9 witness: the billing bot refuses the weather question with a
word-counted usage record, whatever the provider would have said. -/
theorem c9_second_gate_witness :
    generate_response "I focus on billing. How can I assist you?"
        (some ("ans", { prompt_tokens := 7, completion_tokens := 2, total_tokens := 9 }))
        botC9 [{ role := "user", content := "What is the weather today?" }] []
      = some ({ role := "assistant", content := "I focus on billing. How can I assist you?" },
          { prompt_tokens := 0, completion_tokens := 9, total_tokens := 9 }) :=
  c9_second_gate botC9 "What is the weather today?"
    [{ role := "user", content := "What is the weather today?" }]
    "I focus on billing. How can I assist you?"
    (by decide)
    (by
      intro s hs hact t ht
      fin_cases hs
      fin_cases ht
      decide)
    (by decide) (by decide) (by decide)
    (some ("ans", { prompt_tokens := 7, completion_tokens := 2, total_tokens := 9 }))

/-- C9 counterexample: for a bot with no scopes, a weather query with an
empty citation list is not refused: the provider is consulted and its
answer (with non-zero prompt tokens) is returned, and a provider error
propagates — contradicting the claimed unconditional keyword gate. -/
theorem c9_counterexample :
    generate_response "fallback"
        (some ("It is sunny.", { prompt_tokens := 5, completion_tokens := 4, total_tokens := 9 }))
        botNoScopes [{ role := "user", content := "What is the weather today?" }] []
      = some ({ role := "assistant", content := "It is sunny." },
          { prompt_tokens := 5, completion_tokens := 4, total_tokens := 9 }) ∧
    generate_response "fallback" none botNoScopes
        [{ role := "user", content := "What is the weather today?" }] [] = none := by
  exact ⟨by decide, by decide⟩

end ChatCMS
